import Mathlib

/-!
Shallow embedding of the sslscan-cpp sources (Expected.hpp, OptionParser.hpp,
SSL.hpp, main.cpp) and proofs about the behaviour its specification claims.

Exceptions are modelled as an inductive `Exn` carrying the data each C++
exception class stores; the C++ class hierarchy (which `catch (const E&)`
consults) is modelled by `ancestors`/`isSubclassOf`.  `Expected T` mirrors the
tagged union of Expected.hpp.  Fallible C++ code is modelled with
`Except Exn`; OS and OpenSSL calls are abstracted as oracle functions passed
in as parameters.
-/

/-- The dynamic types of the exception classes appearing in the sources.
`expectedVecExn` stands for the type `Expected<std::vector<SocketAddress>>`,
which `createAndConnectSocket` (main.cpp:240) passes to
`Expected<Socket>::fromException`, so a copy of that whole object becomes the
thrown "exception" payload. -/
inductive ExnType
  | runtimeError
  | invalidArgument
  | lengthError
  | addressError
  | socketError
  | sslError
  | optionParserError
  | missingArgumentError
  | invalidSwitchError
  | invalidPositionError
  | expectedVecExn
  deriving DecidableEq, Repr, BEq

/-- The chain of public base classes of each exception type, itself included,
as declared in main.cpp, SSL.hpp and OptionParser.hpp.  (All of
`AddressError`, `SocketError`, `ssl::SSLError` and `OptionParserError` derive
from `std::runtime_error`; the three parser errors derive from
`OptionParserError`.  `Expected<...>` is not an exception class and has no
bases.) -/
def ancestors : ExnType → List ExnType
  | .runtimeError => [.runtimeError]
  | .invalidArgument => [.invalidArgument]
  | .lengthError => [.lengthError]
  | .addressError => [.addressError, .runtimeError]
  | .socketError => [.socketError, .runtimeError]
  | .sslError => [.sslError, .runtimeError]
  | .optionParserError => [.optionParserError, .runtimeError]
  | .missingArgumentError => [.missingArgumentError, .optionParserError, .runtimeError]
  | .invalidSwitchError => [.invalidSwitchError, .optionParserError, .runtimeError]
  | .invalidPositionError => [.invalidPositionError, .optionParserError, .runtimeError]
  | .expectedVecExn => [.expectedVecExn]

/-- Predicate `isSubclassOf d e` holds when a thrown object of dynamic type `d` is
caught by `catch (const E&)` with static type `e`: `d` is `e` or publicly
derived from it. -/
def isSubclassOf (d e : ExnType) : Bool :=
  (ancestors d).contains e

/-- Exception values: one constructor per exception class in the sources,
carrying the data that class stores.  `expectedVecExn` carries the exception
held inside the thrown `Expected<std::vector<SocketAddress>>` object. -/
inductive Exn
  | runtimeError (msg : String)
  | invalidArgument (msg : String)
  | lengthError (msg : String)
  | addressError (status : Int)
  | socketError (errnoVal : Int)
  | sslError (msg : String)
  | optionParserError (option : String)
  | missingArgumentError (option : String)
  | invalidSwitchError (sw : String)
  | invalidPositionError (sw : String)
  | expectedVecExn (inner : Exn)
  deriving DecidableEq, Repr, BEq

/-- The dynamic type of an exception value. -/
def Exn.ty : Exn → ExnType
  | .runtimeError _ => .runtimeError
  | .invalidArgument _ => .invalidArgument
  | .lengthError _ => .lengthError
  | .addressError _ => .addressError
  | .socketError _ => .socketError
  | .sslError _ => .sslError
  | .optionParserError _ => .optionParserError
  | .missingArgumentError _ => .missingArgumentError
  | .invalidSwitchError _ => .invalidSwitchError
  | .invalidPositionError _ => .invalidPositionError
  | .expectedVecExn _ => .expectedVecExn

/-- Model of `Expected<T>` of Expected.hpp: a tagged union holding either a value of
type `T` (`m_haveValue == true`) or an `std::exception_ptr`
(`m_haveValue == false`). -/
inductive Expected (T : Type)
  | value (v : T)
  | exn (e : Exn)
  deriving DecidableEq, Repr, BEq

namespace Expected

/-- Member `Expected::valid` (Expected.hpp:98): true iff holding a value. -/
def valid {T : Type} : Expected T → Bool
  | .value _ => true
  | .exn _ => false

/-- Member `Expected::get` (Expected.hpp:101): returns the stored value, or
re-raises the stored exception (`std::rethrow_exception`). -/
def get {T : Type} : Expected T → Except Exn T
  | .value v => .ok v
  | .exn e => .error e

/-- Member `Expected::hasException<E>` (Expected.hpp:112): rethrows the stored
exception inside a try block and reports whether `catch (const E&)` catches
it; holding a value, or a non-matching exception, yields false. -/
def hasException {T : Type} (E : ExnType) : Expected T → Bool
  | .value _ => false
  | .exn e => isSubclassOf e.ty E

/-- Measure for the recursion in `Expected::swap`: the (exception, value)
case delegates once to the (value, exception) case. -/
def swapMeasure {T : Type} : Expected T → Expected T → Nat
  | .exn _, .value _ => 1
  | _, _ => 0

/-- Member `Expected::swap` (Expected.hpp:57): exchanges the states of `self` and
`rhs`, returning the pair (new self, new rhs).  The four branches follow the
source: value/value swaps the values; value/exception moves the exception
aside, placement-constructs across, and swaps the flags; exception/value
delegates to `rhs.swap(*this)`; exception/exception swaps the pointers. -/
def swap {T : Type} : Expected T → Expected T → Expected T × Expected T
  | .value v, .value w => (.value w, .value v)
  | .value v, .exn e => (.exn e, .value v)
  | .exn e, .value w =>
      let p := swap (.value w) (.exn e)
      (p.2, p.1)
  | .exn e, .exn f => (.exn f, .exn e)
  termination_by a b => swapMeasure a b
  decreasing_by simp [swapMeasure]

/-- Member `Expected::fromException(const E&)` (Expected.hpp:81): `typeid` compares
the argument's dynamic type against the static template parameter `E`; on
mismatch it throws `std::invalid_argument("slicing detected")` in the
caller's context, otherwise it stores the exception.  The result is
`Except`: `.error` is the throw escaping to the caller. -/
def fromExceptionRef (T : Type) (E : ExnType) (e : Exn) : Except Exn (Expected T) :=
  if e.ty ≠ E then
    .error (Exn.invalidArgument "slicing detected")
  else
    .ok (.exn e)

/-- Member `Expected::fromCode` (Expected.hpp:124): runs `fun()`, wrapping a normal
return in the value state and any escaped exception (caught by `catch (...)`
and captured via `fromException()`) in the exception state.  The argument
models the computation's outcome. -/
def fromCode {T : Type} (fn : Except Exn T) : Expected T :=
  match fn with
  | .ok v => .value v
  | .error e => .exn e

end Expected

/-! ## Address resolution and connection (main.cpp) -/

/-- Constant `AF_UNSPEC`, the default address family of `ResolveHost`. -/
def AF_UNSPEC : Int := 0

/-- One `struct addrinfo` node: the fields of the C structure that
`SocketAddress` (main.cpp:89) copies and exposes.  `addr` is an opaque
identifier standing for the raw `ai_addr`/`ai_addrlen` bytes. -/
structure Addrinfo where
  ai_family : Int
  ai_socktype : Int
  ai_protocol : Int
  addr : Nat
  canonname : Option String
  deriving DecidableEq, Repr, BEq

/-- A model of the OS resolver `getaddrinfo`: given (host, service, family)
it yields the status code and the linked list of results (traversed via
`ai_next` in main.cpp:125). -/
def Resolver : Type := String → String → Int → Int × List Addrinfo

/-- Member `SocketAddress::ResolveHost` (main.cpp:94): substitutes service "443"
for an empty service string, calls the resolver; a nonzero status becomes a
failure `Expected` holding `AddressError(status)`, otherwise every resolver
result is collected in order into the success vector. -/
def ResolveHost (resolver : Resolver) (host : String) (service : String)
    (family : Int) : Expected (List Addrinfo) :=
  let theService := if service.length = 0 then "443" else service
  let res := resolver host theService family
  if res.1 ≠ 0 then
    Expected.exn (Exn.addressError res.1)
  else
    Expected.value res.2

/-- A model of the OS socket layer: `socketSys family socktype protocol`
is the `socket(2)` call, returning a descriptor or an errno (on which the
`Socket` constructor, main.cpp:165, throws `SocketError`); `connectSys fd a`
is the `connect(2)` call against address `a` (on failure `Socket::Connect`,
main.cpp:221, throws `SocketError`). -/
structure SysOracle where
  socketSys : Int → Int → Int → Except Int Int
  connectSys : Int → Addrinfo → Except Int Unit

/-- One iteration body of the candidate loop in `createAndConnectSocket`
(main.cpp:244-255): construct a `Socket` from the address's family, socktype
and protocol, then `Connect` it; either step throws `SocketError` carrying
the errno. -/
def tryConnectAddr (sys : SysOracle) (a : Addrinfo) : Except Exn Int :=
  match sys.socketSys a.ai_family a.ai_socktype a.ai_protocol with
  | .error e => .error (Exn.socketError e)
  | .ok fd =>
    match sys.connectSys fd a with
    | .error e => .error (Exn.socketError e)
    | .ok _ => .ok fd

/-- The candidate loop of `createAndConnectSocket` (main.cpp:244-261): try
each resolved address in order; a `SocketError` from the attempt is caught
and iteration continues; the first success returns the connected socket; if
the list is exhausted the function returns a failure `Expected` holding
`std::runtime_error("couldn't create")`. -/
def connectLoop (sys : SysOracle) : List Addrinfo → Expected Int
  | [] => Expected.exn (Exn.runtimeError "couldn't create")
  | a :: rest =>
    match tryConnectAddr sys a with
    | .ok fd => Expected.value fd
    | .error _ => connectLoop sys rest

/-- Function `createAndConnectSocket` (main.cpp:236): resolve the host (empty service,
`AF_UNSPEC`); if resolution failed, pass the whole invalid
`Expected<std::vector<SocketAddress>>` object to
`Expected<Socket>::fromException`, so the stored "exception" is a copy of
that object (type `expectedVecExn`); otherwise run the candidate loop. -/
def createAndConnectSocket (resolver : Resolver) (sys : SysOracle)
    (host : String) : Expected Int :=
  match ResolveHost resolver host "" AF_UNSPEC with
  | .exn e => Expected.exn (Exn.expectedVecExn e)
  | .value addrs => connectLoop sys addrs

/-! ## SSL layer (SSL.hpp) and the scan (main.cpp) -/

/-- The five protocol methods registered in `ssl_methods` (main.cpp:21). -/
inductive SSLMethod
  | SSLv2
  | SSLv3
  | TLSv1
  | TLSv1_1
  | TLSv1_2
  deriving DecidableEq, Repr, BEq

/-- The key list of the `ssl_methods` table (main.cpp:21-27). -/
def ssl_methods : List SSLMethod :=
  [.SSLv2, .SSLv3, .TLSv1, .TLSv1_1, .TLSv1_2]

/-- An `SSL_CIPHER` as exposed by `ssl::SSLCipher` (SSL.hpp:98): name,
protocol-version label and bit strength. -/
structure SSLCipher where
  name : String
  version : String
  bits : Int
  deriving DecidableEq, Repr, BEq

/-- The state of an `SSL_CTX` the embedding tracks: its method and the last
cipher list successfully installed by `SSL_CTX_set_cipher_list` (`none` =
the library default). -/
structure CtxState where
  method : SSLMethod
  cipherRequest : Option String
  deriving DecidableEq, Repr, BEq

/-- A model of the OpenSSL boundary: `ctxNew m` is whether `SSL_CTX_new(m)`
succeeds (on failure `ssl::SSLContext`, SSL.hpp:54, throws
`SSLError("error making context")`); `setCipherList ctx s` is whether
`SSL_CTX_set_cipher_list` accepts `s`; `sslNew ctx` is whether
`SSL_new(ctx)` succeeds (on failure `ssl::SSL`, SSL.hpp:128, throws
`SSLError("error making SSL")`); `getCipherList ctx` is the cipher stack
`SSL_get_ciphers` reports for a session of that context
(`ssl::SSL::GetCipherList`, SSL.hpp:149). -/
structure SSLOracle where
  ctxNew : SSLMethod → Bool
  setCipherList : CtxState → String → Bool
  sslNew : CtxState → Bool
  getCipherList : CtxState → List SSLCipher

/-- Member `ssl::SSLContext::SetCipherList` (SSL.hpp:84): on success the context's
cipher configuration becomes `s`; on failure the context keeps its previous
configuration and the call returns false (callers in main.cpp ignore the
returned bool). -/
def SetCipherList (o : SSLOracle) (ctx : CtxState) (s : String) : CtxState :=
  if o.setCipherList ctx s then { ctx with cipherRequest := some s } else ctx

/-- Function `getSupportedCiphers` (main.cpp:301): build a context for the method
(throws on failure), install "ALL:COMPLEMENTOFALL", build a session (throws
on failure), and read back its cipher list. -/
def getSupportedCiphers (o : SSLOracle) (m : SSLMethod) :
    Except Exn (List SSLCipher) :=
  if o.ctxNew m = false then
    .error (Exn.sslError "error making context")
  else
    let ctx := SetCipherList o ⟨m, none⟩ "ALL:COMPLEMENTOFALL"
    if o.sslNew ctx = false then
      .error (Exn.sslError "error making SSL")
    else
      .ok (o.getCipherList ctx)

/-- The capability-table loop of `main` (main.cpp:354-365): for each method
in `ssl_methods`, insert (method, supported ciphers) into the table; an
`SSLError` escaping `getSupportedCiphers` makes the whole build fail (main
prints the error and returns exit code 2). -/
def buildCipherTable (o : SSLOracle) :
    List SSLMethod → Except Exn (List (SSLMethod × List SSLCipher))
  | [] => .ok []
  | m :: rest =>
    match getSupportedCiphers o m with
    | .error e => .error e
    | .ok cs =>
      match buildCipherTable o rest with
      | .error e => .error e
      | .ok table => .ok ((m, cs) :: table)

/-- One probe of the inner loop of `scanOneHost` (main.cpp:289-292): build a
context for the method (throws on failure), restrict it to the one cipher's
name, and build a session bound to it (throws on failure).  No exception is
caught anywhere in `scanOneHost`. -/
def probeOne (o : SSLOracle) (m : SSLMethod) (c : SSLCipher) :
    Except Exn Unit :=
  if o.ctxNew m = false then
    .error (Exn.sslError "error making context")
  else
    let ctx := SetCipherList o ⟨m, none⟩ c.name
    if o.sslNew ctx = false then
      .error (Exn.sslError "error making SSL")
    else
      .ok ()

/-- The inner cipher loop of `scanOneHost` for one method: returns the list
of (method, cipher) pairs whose probe completed, and the first uncaught
exception if a probe threw (which ends the iteration). -/
def probeCiphers (o : SSLOracle) (m : SSLMethod) :
    List SSLCipher → List (SSLMethod × SSLCipher) × Option Exn
  | [] => ([], none)
  | c :: rest =>
    match probeOne o m c with
    | .error e => ([], some e)
    | .ok _ =>
      let p := probeCiphers o m rest
      ((m, c) :: p.1, p.2)

/-- The outer method loop of `scanOneHost` (main.cpp:282-297): probes every
cipher of every table entry in order; an exception thrown by any probe
propagates immediately (nothing in `scanOneHost` catches it). -/
def scanProbes (o : SSLOracle) :
    List (SSLMethod × List SSLCipher) → List (SSLMethod × SSLCipher) × Option Exn
  | [] => ([], none)
  | (m, cs) :: rest =>
    let p := probeCiphers o m cs
    match p.2 with
    | some e => (p.1, some e)
    | none =>
      let q := scanProbes o rest
      (p.1 ++ q.1, q.2)

/-- Function `scanOneHost` (main.cpp:264): connect to the host; if that fails, print
"Error connecting" and return having probed nothing; otherwise run the
probe loops.  The result records which (method, cipher) pairs were probed to
completion and the uncaught exception, if one propagated out of the
function (`none` = returned normally).  The function records no outcome of
any probe. -/
def scanOneHost (resolver : Resolver) (sys : SysOracle) (o : SSLOracle)
    (host : String) (ciphers : List (SSLMethod × List SSLCipher)) :
    List (SSLMethod × SSLCipher) × Option Exn :=
  if (createAndConnectSocket resolver sys host).valid = false then
    ([], none)
  else
    scanProbes o ciphers

/-! ## Basic lemmas -/

/-- A `catch (const E&)` clause always catches a thrown object whose dynamic type is
exactly `E`. -/
theorem isSubclassOf_refl (t : ExnType) : isSubclassOf t t = true := by
  cases t <;> rfl

/-! ## Claims about the Result channel (Expected.hpp) -/

/-- C5: a success `Expected` built from a value `v` yields `v` from `get()`
(no exception is raised), reports `valid() = true`, and
`hasException<K>() = false` for every exception kind `K`; a failure
`Expected` built from an exception `e` re-raises `e` itself from `get()`
(a failure of `e`'s own kind, witnessed by `hasException`) and reports
`valid() = false`. -/
theorem expected_value_exn_contract (T : Type) (v : T) (e : Exn) :
    (Expected.value v).get = Except.ok v
      ∧ (Expected.value v).valid = true
      ∧ (∀ K : ExnType, (Expected.value v).hasException K = false)
      ∧ (Expected.exn e : Expected T).get = Except.error e
      ∧ (Expected.exn e : Expected T).hasException e.ty = true
      ∧ (Expected.exn e : Expected T).valid = false := by
  refine ⟨rfl, rfl, fun K => rfl, rfl, ?_, rfl⟩
  simpa [Expected.hasException] using isSubclassOf_refl e.ty

/-- C6: `swap` exchanges the two states exactly in all four combinations of
(value, value), (value, exception), (exception, value) and
(exception, exception); quantifying over both operands covers both call
orders `a.swap(b)` and `b.swap(a)`. -/
theorem expected_swap_exchanges (T : Type) (v w : T) (e f : Exn) :
    Expected.swap (Expected.value v) (Expected.value w)
        = (Expected.value w, Expected.value v)
      ∧ Expected.swap (Expected.value v) (Expected.exn e)
        = (Expected.exn e, Expected.value v)
      ∧ Expected.swap (Expected.exn e) (Expected.value v)
        = (Expected.value v, Expected.exn e)
      ∧ Expected.swap (Expected.exn e : Expected T) (Expected.exn f)
        = (Expected.exn f, Expected.exn e) := by
  refine ⟨?_, ?_, ?_, ?_⟩ <;> simp [Expected.swap]

/-- C7: `fromCode` wraps a computation that returns `v` into a success
`Expected` from which `get()` returns `v`, and a computation that raises `e`
into a failure `Expected` whose stored exception matches `e`'s kind (and is
`e` itself). -/
theorem expected_fromCode_contract (T : Type) (v : T) (e : Exn) :
    Expected.fromCode (Except.ok v) = Expected.value v
      ∧ (Expected.fromCode (Except.ok v)).get = Except.ok v
      ∧ Expected.fromCode (Except.error e) = (Expected.exn e : Expected T)
      ∧ (Expected.fromCode (Except.error e) : Expected T).hasException e.ty
          = true := by
  exact ⟨rfl, rfl, rfl, by simpa [Expected.fromCode, Expected.hasException]
    using isSubclassOf_refl e.ty⟩

/-- C9: `hasException<K>` matches through the class hierarchy: a stored
exception whose dynamic type is `K` or a subclass of `K` satisfies the
test. -/
theorem expected_hasException_base (T : Type) (e : Exn) (K : ExnType)
    (h : isSubclassOf e.ty K = true) :
    (Expected.exn e : Expected T).hasException K = true := by
  simpa [Expected.hasException] using h

/-- C9 witness: an `Expected<int>` holding a `MissingArgumentError`
satisfies `hasException<OptionParserError>`. -/
theorem expected_hasException_base_witness :
    (Expected.exn (Exn.missingArgumentError "t") : Expected Int).hasException
      ExnType.optionParserError = true :=
  expected_hasException_base Int (Exn.missingArgumentError "t")
    ExnType.optionParserError (by decide)

/-- C10: `fromException(const E&)` applied to an exception object whose
dynamic type differs from the static parameter type `E` does not produce a
failure `Expected`: it throws `std::invalid_argument("slicing detected")`
into the caller's context. -/
theorem fromExceptionRef_slicing (T : Type) (E : ExnType) (e : Exn)
    (h : e.ty ≠ E) :
    Expected.fromExceptionRef T E e
      = Except.error (Exn.invalidArgument "slicing detected") := by
  simp [Expected.fromExceptionRef, h]

/-- C10 witness: passing a `MissingArgumentError` through a parameter of
static type `OptionParserError` triggers the slicing check. -/
theorem fromExceptionRef_slicing_witness :
    Expected.fromExceptionRef Int ExnType.optionParserError
        (Exn.missingArgumentError "t")
      = Except.error (Exn.invalidArgument "slicing detected") :=
  fromExceptionRef_slicing Int ExnType.optionParserError
    (Exn.missingArgumentError "t") (by decide)

/-! ## Claims about resolution and connection (main.cpp) -/

/-- C2: whenever the underlying resolver reports a nonzero status,
`ResolveHost` returns a failure holding `AddressError` with that status
(so `hasException<AddressError>` holds); and, under the `getaddrinfo`
contract that a zero status comes with at least one result, `ResolveHost`
never returns a success holding an empty endpoint vector. -/
theorem resolveHost_error_handling (resolver : Resolver)
    (hposix : ∀ h s f, (resolver h s f).1 = 0 → (resolver h s f).2 ≠ [])
    (host service : String) (family : Int) :
    (∀ status addrs,
        resolver host (if service.length = 0 then "443" else service) family
            = (status, addrs) →
        status ≠ 0 →
        ResolveHost resolver host service family
            = Expected.exn (Exn.addressError status)
          ∧ (ResolveHost resolver host service family).hasException
              ExnType.addressError = true)
      ∧ ResolveHost resolver host service family ≠ Expected.value [] := by
  constructor
  · intro status addrs hres hstatus
    constructor
    · simp [ResolveHost, hres, hstatus]
    · simp [ResolveHost, hres, hstatus, Expected.hasException, isSubclassOf,
        ancestors, Exn.ty]
      decide
  · intro hcontra
    unfold ResolveHost at hcontra
    by_cases h0 :
        (resolver host (if service.length = 0 then "443" else service)
          family).1 = 0
    · simp [h0] at hcontra
      exact hposix host (if service.length = 0 then "443" else service)
        family h0 hcontra
    · simp [h0] at hcontra

/-- A resolver that always fails with status -2 (`EAI_NONAME`). -/
def failingResolver : Resolver := fun _ _ _ => (-2, [])

/-- C2 witness: resolving an unresolvable name against `failingResolver`
yields the `AddressError(-2)` failure. -/
theorem resolveHost_error_handling_witness :
    ResolveHost failingResolver "unresolvable.example" "" 0
        = Expected.exn (Exn.addressError (-2))
      ∧ (ResolveHost failingResolver "unresolvable.example" "" 0).hasException
          ExnType.addressError = true :=
  (resolveHost_error_handling failingResolver
      (by intro h s f hst; simp [failingResolver] at hst)
      "unresolvable.example" "" 0).1 (-2) [] rfl (by decide)

/-- C3: when the candidate list is empty, or every candidate's socket
creation or connect attempt throws, the candidate loop of
`createAndConnectSocket` returns a failure (never a success) holding
`std::runtime_error("couldn't create")` — the exception this code produces
for "no candidate could be connected" (the spec's ConnectionError). -/
theorem connectLoop_all_fail (sys : SysOracle) (addrs : List Addrinfo)
    (h : ∀ a ∈ addrs, ∃ e, tryConnectAddr sys a = Except.error e) :
    connectLoop sys addrs = Expected.exn (Exn.runtimeError "couldn't create")
      ∧ (connectLoop sys addrs).valid = false
      ∧ (connectLoop sys addrs).hasException ExnType.runtimeError = true := by
  induction addrs with
  | nil => exact ⟨rfl, rfl, rfl⟩
  | cons a rest ih =>
    obtain ⟨e, he⟩ := h a (by simp)
    simpa [connectLoop, he] using ih (fun b hb => h b (by simp [hb]))

/-- A socket layer whose `connect(2)` always fails with errno 111
(`ECONNREFUSED`). -/
def refusingSys : SysOracle :=
  ⟨fun _ _ _ => Except.ok 3, fun _ _ => Except.error 111⟩

/-- C3 witness: two refused candidates end in the "couldn't create"
failure. -/
theorem connectLoop_all_fail_witness :
    connectLoop refusingSys [⟨2, 1, 6, 0, none⟩, ⟨10, 1, 6, 1, none⟩]
        = Expected.exn (Exn.runtimeError "couldn't create")
      ∧ (connectLoop refusingSys [⟨2, 1, 6, 0, none⟩, ⟨10, 1, 6, 1, none⟩]).valid
          = false
      ∧ (connectLoop refusingSys
          [⟨2, 1, 6, 0, none⟩, ⟨10, 1, 6, 1, none⟩]).hasException
          ExnType.runtimeError = true :=
  connectLoop_all_fail refusingSys [⟨2, 1, 6, 0, none⟩, ⟨10, 1, 6, 1, none⟩]
    (fun _ _ => ⟨Exn.socketError 111, rfl⟩)

/-- C4: when every endpoint in the prefix fails its attempt and the next
endpoint's attempt succeeds with descriptor `fd`, the candidate loop tries
the endpoints in list order, short-circuits at the first success (the
endpoints after it are arbitrary and never touched), and returns a success
holding the connection made to that endpoint. -/
theorem connectLoop_first_success (sys : SysOracle) (failing : List Addrinfo)
    (a : Addrinfo) (rest : List Addrinfo) (fd : Int)
    (hfail : ∀ b ∈ failing, ∃ e, tryConnectAddr sys b = Except.error e)
    (hsucc : tryConnectAddr sys a = Except.ok fd) :
    connectLoop sys (failing ++ a :: rest) = Expected.value fd := by
  induction failing with
  | nil => simp [connectLoop, hsucc]
  | cons b fs ih =>
    obtain ⟨e, he⟩ := hfail b (by simp)
    simpa [connectLoop, he] using ih (fun x hx => hfail x (by simp [hx]))

/-- A socket layer that refuses the first two candidate addresses (ids 0
and 1) and accepts the third. -/
def pickySys : SysOracle :=
  ⟨fun _ _ _ => Except.ok 7,
   fun _ a => if a.addr < 2 then Except.error 111 else Except.ok ()⟩

/-- C4 witness: with the first two of three candidates failing, the loop
returns the socket connected to the third. -/
theorem connectLoop_first_success_witness :
    connectLoop pickySys
        [⟨2, 1, 6, 0, none⟩, ⟨2, 1, 6, 1, none⟩, ⟨2, 1, 6, 2, none⟩]
      = Expected.value 7 :=
  connectLoop_first_success pickySys [⟨2, 1, 6, 0, none⟩, ⟨2, 1, 6, 1, none⟩]
    ⟨2, 1, 6, 2, none⟩ [] 7
    (by
      intro b hb
      fin_cases hb <;> exact ⟨Exn.socketError 111, rfl⟩)
    rfl

/-! ## Claims about the capability table (main.cpp) -/

/-- A successful table build lists exactly the requested methods as keys,
in order. -/
theorem buildCipherTable_keys (o : SSLOracle) (ms : List SSLMethod)
    (table : List (SSLMethod × List SSLCipher))
    (h : buildCipherTable o ms = Except.ok table) :
    table.map Prod.fst = ms := by
  induction ms generalizing table with
  | nil =>
    cases h
    rfl
  | cons m rest ih =>
    unfold buildCipherTable at h
    cases hg : getSupportedCiphers o m with
    | error e => rw [hg] at h; cases h
    | ok cs =>
      rw [hg] at h
      cases hb : buildCipherTable o rest with
      | error e => rw [hb] at h; cases h
      | ok t =>
        rw [hb] at h
        cases h
        simp [ih t hb]

/-- C8: a successfully built capability table has every supported protocol
method as a key (whatever cipher lists the library reports, including empty
ones), and evaluating the build again — the model is pure, matching the
absence of concurrent mutation — yields the identical table. -/
theorem capabilityTable_structure (o : SSLOracle)
    (table : List (SSLMethod × List SSLCipher))
    (h : buildCipherTable o ssl_methods = Except.ok table) :
    (∀ m ∈ ssl_methods, m ∈ table.map Prod.fst)
      ∧ buildCipherTable o ssl_methods = Except.ok table := by
  refine ⟨?_, h⟩
  intro m hm
  rw [buildCipherTable_keys o ssl_methods table h]
  exact hm

/-- An SSL library model whose every call succeeds but which reports an
empty cipher list for every context. -/
def emptyCipherOracle : SSLOracle :=
  ⟨fun _ => true, fun _ _ => true, fun _ => true, fun _ => []⟩

/-- C8 witness: under `emptyCipherOracle` the build succeeds, every one of
the five protocol methods is a key even though every cipher list is empty,
and rebuilding returns the same table. -/
theorem capabilityTable_structure_witness :
    (∀ m ∈ ssl_methods,
        m ∈ List.map Prod.fst
          [(SSLMethod.SSLv2, ([] : List SSLCipher)), (SSLMethod.SSLv3, []),
           (SSLMethod.TLSv1, []), (SSLMethod.TLSv1_1, []),
           (SSLMethod.TLSv1_2, [])])
      ∧ buildCipherTable emptyCipherOracle ssl_methods
          = Except.ok
            [(SSLMethod.SSLv2, []), (SSLMethod.SSLv3, []),
             (SSLMethod.TLSv1, []), (SSLMethod.TLSv1_1, []),
             (SSLMethod.TLSv1_2, [])] :=
  capabilityTable_structure emptyCipherOracle
    [(SSLMethod.SSLv2, []), (SSLMethod.SSLv3, []), (SSLMethod.TLSv1, []),
     (SSLMethod.TLSv1_1, []), (SSLMethod.TLSv1_2, [])] rfl

/-! ## Claims about the per-host scan (main.cpp) -/

/-- In the cipher loop, probes before the failing cipher complete, and the
first probe that throws ends the iteration with its exception: the ciphers
after it are never probed. -/
theorem probeCiphers_first_failure (o : SSLOracle) (m : SSLMethod)
    (good : List SSLCipher) (c : SSLCipher) (later : List SSLCipher) (e : Exn)
    (hgood : ∀ x ∈ good, probeOne o m x = Except.ok ())
    (hc : probeOne o m c = Except.error e) :
    probeCiphers o m (good ++ c :: later)
      = (good.map (fun x => (m, x)), some e) := by
  induction good with
  | nil => simp [probeCiphers, hc]
  | cons g gs ih =>
    have hg := hgood g (by simp)
    simp [probeCiphers, hg, ih (fun x hx => hgood x (by simp [hx]))]

/-- In the method loop, once one entry's cipher loop ends in an uncaught
exception, the whole scan ends with that exception: the entries after it
are never visited. -/
theorem scanProbes_failure_propagates (o : SSLOracle)
    (pre : List (SSLMethod × List SSLCipher)) (m : SSLMethod)
    (cs : List SSLCipher) (rest : List (SSLMethod × List SSLCipher))
    (done : List (SSLMethod × SSLCipher)) (e : Exn)
    (hpre : (scanProbes o pre).2 = none)
    (hentry : probeCiphers o m cs = (done, some e)) :
    scanProbes o (pre ++ (m, cs) :: rest)
      = ((scanProbes o pre).1 ++ done, some e) := by
  induction pre with
  | nil => simp [scanProbes, hentry]
  | cons q qs ih =>
    cases q with
    | mk mq csq =>
      cases hq : (probeCiphers o mq csq).2 with
      | some eq0 =>
        rw [show scanProbes o ((mq, csq) :: qs)
            = ((probeCiphers o mq csq).1, some eq0) by
          simp [scanProbes, hq]] at hpre
        cases hpre
      | none =>
        have hqs : (scanProbes o qs).2 = none := by
          rw [show scanProbes o ((mq, csq) :: qs)
              = ((probeCiphers o mq csq).1 ++ (scanProbes o qs).1,
                 (scanProbes o qs).2) by
            simp [scanProbes, hq]] at hpre
          exact hpre
        simp [scanProbes, hq, ih hqs]

/-- C1 (amended): an exception from constructing the per-probe TLS context
or session is not caught anywhere in `scanOneHost`; it aborts the host scan
at the failing (method, cipher) pair, the pairs after it are never probed,
and no outcome is recorded (the source records no probe outcome at all).
Only the connection step is checked non-fatally. -/
theorem scanOneHost_probe_failure_aborts (resolver : Resolver)
    (sys : SysOracle) (o : SSLOracle) (host : String)
    (pre : List (SSLMethod × List SSLCipher)) (m : SSLMethod)
    (good : List SSLCipher) (c : SSLCipher) (later : List SSLCipher)
    (rest : List (SSLMethod × List SSLCipher)) (e : Exn)
    (hconn : (createAndConnectSocket resolver sys host).valid = true)
    (hpre : (scanProbes o pre).2 = none)
    (hgood : ∀ x ∈ good, probeOne o m x = Except.ok ())
    (hc : probeOne o m c = Except.error e) :
    scanOneHost resolver sys o host (pre ++ (m, good ++ c :: later) :: rest)
      = ((scanProbes o pre).1 ++ good.map (fun x => (m, x)), some e) := by
  have h1 := probeCiphers_first_failure o m good c later e hgood hc
  have h2 := scanProbes_failure_propagates o pre m (good ++ c :: later) rest
    (good.map (fun x => (m, x))) e hpre h1
  simp [scanOneHost, hconn, h2]

/-- A resolver that resolves every host to one address. -/
def cexResolver : Resolver := fun _ _ _ => (0, [⟨2, 1, 6, 0, none⟩])

/-- A socket layer on which every creation and connect succeeds. -/
def cexSys : SysOracle :=
  ⟨fun _ _ _ => Except.ok 3, fun _ _ => Except.ok ()⟩

/-- The first cipher of the counterexample table. -/
def cexCipherA : SSLCipher := ⟨"AES128-SHA", "TLSv1.2", 128⟩

/-- The second cipher of the counterexample table. -/
def cexCipherB : SSLCipher := ⟨"AES256-SHA", "TLSv1.2", 256⟩

/-- An SSL library model on which `SSL_new` fails exactly when the context
was restricted to the cipher list "AES128-SHA", and succeeds otherwise. -/
def cexSSL : SSLOracle :=
  ⟨fun _ => true, fun _ _ => true,
   fun ctx => ctx.cipherRequest != some "AES128-SHA", fun _ => []⟩

/-- C1 counterexample: scanning a reachable host whose capability table
lists TLSv1.2 with the two ciphers `cexCipherA`, `cexCipherB` under an SSL
library for which the session construction for `cexCipherA` fails.  The
claim — the failure does not abort the scan and the remaining pair
(TLSv1.2, `cexCipherB`) is still probed — is false: the `SSLError` escapes
`scanOneHost` uncaught (the scan aborts) and the second pair is never
probed; no failure outcome is recorded anywhere. -/
theorem scanOneHost_probe_failure_cex :
    ¬ ((scanOneHost cexResolver cexSys cexSSL "host.example"
          [(SSLMethod.TLSv1_2, [cexCipherA, cexCipherB])]).2 = none
        ∧ (SSLMethod.TLSv1_2, cexCipherB)
            ∈ (scanOneHost cexResolver cexSys cexSSL "host.example"
                [(SSLMethod.TLSv1_2, [cexCipherA, cexCipherB])]).1) := by
  intro hcl
  have hrun : scanOneHost cexResolver cexSys cexSSL "host.example"
      [(SSLMethod.TLSv1_2, [cexCipherA, cexCipherB])]
      = ([], some (Exn.sslError "error making SSL")) := rfl
  rw [hrun] at hcl
  simp at hcl

/-- C1 (amended) witness: the concrete counterexample scan, derived through
the amended theorem: the scan aborts with the `SSLError` having probed
nothing. -/
theorem scanOneHost_probe_failure_aborts_witness :
    scanOneHost cexResolver cexSys cexSSL "host.example"
        [(SSLMethod.TLSv1_2, [cexCipherA, cexCipherB])]
      = ([], some (Exn.sslError "error making SSL")) :=
  scanOneHost_probe_failure_aborts cexResolver cexSys cexSSL "host.example"
    [] SSLMethod.TLSv1_2 [] cexCipherA [cexCipherB] []
    (Exn.sslError "error making SSL") rfl rfl (by simp) rfl
